import Mathlib

/-
Verification development for the `alphagenome-deploy` helper layer
(`src/alphagenome_tools/helpers.py`): the `APIMonitor` usage counter,
the `monitor_api_quota` singleton accessor, the CSV interval loader,
and the two batch-prediction loops `batch_predict_variants` and
`batch_predict_sequences`.

Modelling conventions:
- Python `int` is `Int`; the `warning_threshold` float is modelled as a
  rational (`ℚ`), the standard shallow embedding of the exact decimal
  literals the code uses (such as `0.9`).
- The external model handle (`model.predict_variant` /
  `model.predict_sequence`) is an oracle indexed by call number that
  either returns an opaque outputs object or raises, represented as
  `Except String ModelOutputs` where the `String` is the exception's
  string form (`str(e)` in the handlers).
- File contents are passed explicitly: `Option (List String)` is the
  usage-log file (`none` = file does not exist, otherwise its lines);
  a `Bool` flag stands for whether a log append succeeds.
- The process-global `_api_monitor` variable is threaded explicitly as
  an `Option APIMonitor` value.
-/

namespace AlphagenomeTools

/-- A variant request, as in `genome.Variant` usage throughout
`helpers.py`: chromosome, position, reference and alternate bases. -/
structure Variant where
  chromosome : String
  position : Int
  reference_bases : String
  alternate_bases : String
deriving DecidableEq

/-- A genomic interval with `chromosome`, `start`, `end` fields, the shape
used by `helpers.py` (the external `genome.Interval` data object). -/
structure Interval where
  chromosome : String
  start : Int
  «end» : Int
deriving DecidableEq

/-- The opaque outputs object returned by a successful external call; the
only thing `helpers.py` inspects is whether it exposes `reference` and
`alternate` attributes (`hasattr` checks at lines 270-273). -/
structure ModelOutputs where
  hasReference : Bool
  hasAlternate : Bool
deriving DecidableEq

/-- Everything after the first occurrence of `sep` in `l`, or `none`
when `sep` (assumed nonempty) does not occur: the tail Python's
`l.split(sep)` concatenates after its first element. -/
def afterFirst (sep : List Char) : List Char → Option (List Char)
  | [] => none
  | c :: rest =>
    if sep.isPrefixOf (c :: rest) then some (List.drop sep.length (c :: rest))
    else afterFirst sep rest

/-- Everything before the first occurrence of `sep` in `l` (all of `l`
when `sep` does not occur): combined with `afterFirst` this yields the
element at index 1 of Python's `l.split(sep)`. -/
def beforeFirst (sep : List Char) : List Char → List Char
  | [] => []
  | c :: rest =>
    if sep.isPrefixOf (c :: rest) then [] else c :: beforeFirst sep rest

/-- Python's `str.strip()` on a character list: drop leading and
trailing whitespace. -/
def stripChars (l : List Char) : List Char :=
  ((l.dropWhile Char.isWhitespace).reverse.dropWhile Char.isWhitespace).reverse

/-- Digit-string value: the number denoted by a nonempty all-digit
character list, `none` otherwise. -/
def parseNatChars (l : List Char) : Option Nat :=
  if l ≠ [] ∧ l.all Char.isDigit then
    some (l.foldl (fun n c => n * 10 + (c.toNat - (48 : Nat))) 0)
  else none

/-- Python's `int(...)` on an already stripped string (the decimal forms
the monitor itself writes): optional sign followed by digits; anything
else raises, modelled as `none`. -/
def parseIntChars (l : List Char) : Option Int :=
  match l with
  | '-' :: ds => (parseNatChars ds).map (fun n => -(n : Int))
  | '+' :: ds => (parseNatChars ds).map (fun n => (n : Int))
  | ds => (parseNatChars ds).map (fun n => (n : Int))

/-- Parse of the last log line inside `APIMonitor._load_usage`
(helpers.py lines 69-71): the line is examined only if it contains the
substring `Total calls`; then the code splits on `Total calls:`, takes
the piece at index 1 (between the first and second occurrence of the
marker), strips it and parses it with `int(...)`. Any failure on that
path (no piece after the marker, or a non-integer remainder) raises and
is swallowed by the caller, which we model by returning `none`. -/
def parseUsageLine (line : String) : Option Int :=
  if (afterFirst "Total calls".toList line.toList).isSome then
    match afterFirst "Total calls:".toList line.toList with
    | some restChars =>
      parseIntChars (stripChars (beforeFirst "Total calls:".toList restChars))
    | none => none
  else none

/-- `APIMonitor._load_usage` (helpers.py lines 64-73) as a function from
the log-file contents to the restored `calls` value: a missing file
leaves the counter at 0; otherwise only the final line (`readlines()[-1]`)
is examined (an empty file raises `IndexError`, swallowed, counter 0);
if that final line parses, its value is restored, else the exception or
the absent marker leaves the counter at 0. -/
def loadUsage : Option (List String) → Int
  | none => 0
  | some lines =>
    match lines.getLast? with
    | none => 0
    | some last => (parseUsageLine last).getD 0

/-- In-memory state of `APIMonitor`: configured `limit`, the
`warning_threshold` fraction, and the running `calls` counter. -/
structure APIMonitor where
  limit : Int
  warning_threshold : ℚ
  calls : Int
deriving DecidableEq

/-- `APIMonitor.__init__` (helpers.py lines 48-62): store `limit` and
`warning_threshold`, start `calls` at 0, then `_load_usage` from the log
file, which may replace the 0 by the persisted total. -/
def APIMonitor.make (limit : Int) (warning_threshold : ℚ)
    (file : Option (List String)) : APIMonitor :=
  { limit := limit, warning_threshold := warning_threshold
    calls := loadUsage file }

/-- Observable outcome of one `APIMonitor.increment` call: the updated
monitor, whether the usage warning fired, and the error captured by
`_log_usage` when the log append failed (it is logged, never raised). -/
structure IncrementResult where
  monitor : APIMonitor
  warned : Bool
  logError : Option String
deriving DecidableEq

/-- `APIMonitor.increment` (helpers.py lines 75-91) together with
`_log_usage` (lines 93-100): add `count` to `calls`; attempt the log
append, whose `Exception` is caught inside `_log_usage` and recorded via
`logger.error` (modelled by the `logError` field) so it never propagates;
then warn iff the post-increment fraction `calls / limit` is at least
`warning_threshold`. Per the data model `limit > 0` (Python would raise
`ZeroDivisionError` at `limit = 0`, a state no constructor in the
repository produces). -/
def APIMonitor.increment (m : APIMonitor) (count : Int) (appendOk : Bool) :
    IncrementResult :=
  let calls := m.calls + count
  let logError : Option String := if appendOk then none else some "Could not log usage"
  let warned := decide ((calls : ℚ) / (m.limit : ℚ) ≥ m.warning_threshold)
  { monitor := { m with calls := calls }, warned := warned, logError := logError }

/-- The dictionary returned by `APIMonitor.get_usage`
(helpers.py lines 102-113). -/
structure UsageStats where
  calls : Int
  limit : Int
  remaining : Int
deriving DecidableEq

/-- `APIMonitor.get_usage` (helpers.py lines 102-113). -/
def APIMonitor.get_usage (m : APIMonitor) : UsageStats :=
  { calls := m.calls, limit := m.limit, remaining := m.limit - m.calls }

/-- `monitor_api_quota` (helpers.py lines 125-139) over an explicit
global state: if the global `_api_monitor` is `none` or `reset` is set,
construct a fresh `APIMonitor` with the given `limit` (and the default
`warning_threshold = 0.9`) and install it; otherwise return the existing
instance unchanged. Returns the monitor handed to the caller together
with the new global state. -/
def monitor_api_quota (st : Option APIMonitor) (limit : Int) (reset : Bool)
    (file : Option (List String)) : APIMonitor × Option APIMonitor :=
  match st, reset with
  | some m, false => (m, some m)
  | _, _ =>
    let m := APIMonitor.make limit (9 / 10) file
    (m, some m)

/-- One parsed CSV row of the interval input
(header `chromosome,start,end`, integer parses already applied as in
helpers.py lines 196-200). -/
structure CsvIntervalRow where
  chromosome : String
  start : Int
  «end» : Int
deriving DecidableEq

/-- Modelled from the spec: the constructor of the external
`genome.Interval` data object (the `alphagenome` package, not part of
this repository's sources) as invoked by `load_intervals_from_csv`.
The spec's data model states the invariant `end > start` for intervals
and that a row violating it is rejected at construction, so the
constructor returns an error for `end ≤ start` and the interval value
otherwise. -/
def Interval.make (chromosome : String) (start «end» : Int) :
    Except String Interval :=
  if «end» ≤ start then Except.error "invalid interval: end must exceed start"
  else Except.ok { chromosome := chromosome, start := start, «end» := «end» }

/-- `load_intervals_from_csv` (helpers.py lines 175-204) over already
split-and-parsed rows: construct a `genome.Interval` per row in order,
appending to the result list; a constructor error aborts the load (the
exception propagates, no partial recovery). -/
def load_intervals_from_csv : List CsvIntervalRow → Except String (List Interval)
  | [] => Except.ok []
  | r :: rest =>
    match Interval.make r.chromosome r.start r.«end» with
    | Except.error e => Except.error e
    | Except.ok iv =>
      match load_intervals_from_csv rest with
      | Except.error e => Except.error e
      | Except.ok ivs => Except.ok (iv :: ivs)

/-- Whether an `Except` value is the error case. -/
def exceptIsError : Except String (List Interval) → Bool
  | Except.error _ => true
  | Except.ok _ => false

/-- The default window built inside `batch_predict_variants`
(helpers.py lines 243-250): a 100000-wide window around the variant,
lower bound `max(0, position - window_size // 2)`, upper bound
`position + window_size // 2`. (The source passes the lower bound via
the constructor's first coordinate keyword.) -/
def variantWindow (v : Variant) : Interval :=
  let window_size : Int := 100000
  { chromosome := v.chromosome
    start := max 0 (v.position - window_size / 2)
    «end» := v.position + window_size / 2 }

/-- One row of the DataFrame built by `batch_predict_variants`: the
echoed variant fields, the `success` flag, and the branch-specific
fields `has_outputs` (success rows, lines 261-273) or `error`
(failure rows, lines 283-290), absent fields being `none`. -/
structure VariantRow where
  chromosome : String
  position : Int
  reference : String
  alternate : String
  success : Bool
  has_outputs : Option Bool
  error : Option String
deriving DecidableEq

/-- The row `batch_predict_variants` appends for one variant, as a
function of the external call's outcome. -/
def variantRowOf (v : Variant) : Except String ModelOutputs → VariantRow
  | Except.ok outputs =>
    { chromosome := v.chromosome, position := v.position
      reference := v.reference_bases, alternate := v.alternate_bases
      success := true
      has_outputs := some (outputs.hasReference && outputs.hasAlternate)
      error := none }
  | Except.error e =>
    { chromosome := v.chromosome, position := v.position
      reference := v.reference_bases, alternate := v.alternate_bases
      success := false, has_outputs := none, error := some e }

/-- Loop state of `batch_predict_variants`: the local `interval`
variable (which the loop body assigns, so it persists across
iterations), the global monitor variable, the accumulated `results`
list, and a trace of the `(interval, variant)` arguments passed to each
`model.predict_variant` call. -/
structure VariantBatchState where
  interval : Option Interval
  gmon : Option APIMonitor
  results : List VariantRow
  callLog : List (Interval × Variant)
deriving DecidableEq

/-- One iteration of the `batch_predict_variants` loop
(helpers.py lines 240-290) for the variant at call index `i`:
if the local `interval` is still `None`, assign it the default window
around this variant (the assignment persists — the source reuses the
`interval` parameter variable); issue the external call with that
interval; on success append the success row and, if monitoring, fetch
the global monitor via `monitor_api_quota()` (default limit) and
increment it once; on an exception append the failure row and continue. -/
def predictVariantStep (o : Nat → Except String ModelOutputs) (mf : Bool)
    (file : Option (List String)) (i : Nat) (v : Variant)
    (st : VariantBatchState) : VariantBatchState :=
  let ivUsed := match st.interval with
    | some iv0 => iv0
    | none => variantWindow v
  match o i with
  | Except.ok outputs =>
    let st1 := { st with interval := some ivUsed
                         results := st.results ++ [variantRowOf v (Except.ok outputs)]
                         callLog := st.callLog ++ [(ivUsed, v)] }
    if mf then
      let fetched := (monitor_api_quota st1.gmon 1000000 false file).1
      { st1 with gmon := some (fetched.increment 1 true).monitor }
    else st1
  | Except.error e =>
    { st with interval := some ivUsed
              results := st.results ++ [variantRowOf v (Except.error e)]
              callLog := st.callLog ++ [(ivUsed, v)] }

/-- The `for variant in iterator` loop of `batch_predict_variants`,
processing the remaining variants starting at call index `i`. -/
def runVariantLoop (o : Nat → Except String ModelOutputs) (mf : Bool)
    (file : Option (List String)) : Nat → List Variant → VariantBatchState →
    VariantBatchState
  | _, [], st => st
  | i, v :: rest, st =>
    runVariantLoop o mf file (i + 1) rest (predictVariantStep o mf file i v st)

/-- The post-loop stage shared by both batch runners
(helpers.py lines 292-293 and 355-358): `pd.DataFrame(results)` followed
by the summary log line reading `df['success'].sum()`. When no row was
emitted the DataFrame has no `success` column, so the column access
raises `KeyError` and the function returns no table; otherwise the rows
are returned unchanged. -/
def summariseTable {α : Type} (rows : List α) : Except String (List α) :=
  if rows.isEmpty then Except.error "KeyError: success" else Except.ok rows

/-- What one `batch_predict_variants` call observably produces: the value
handed to the caller — the DataFrame's rows, or the exception raised by
the post-loop summary — together with the global monitor state after the
call and the trace of issued remote calls. -/
structure VariantBatchOutcome where
  table : Except String (List VariantRow)
  gmon : Option APIMonitor
  callLog : List (Interval × Variant)

/-- `batch_predict_variants` (helpers.py lines 207-295): run the loop
over all variants from the caller-supplied `interval` (or `None`), the
current global monitor state and the usage-log file contents, then run
the post-loop summary, which raises on an empty row list; the returned
DataFrame's rows are the loop's `results` list in order. -/
def batch_predict_variants (variants : List Variant)
    (o : Nat → Except String ModelOutputs) (interval : Option Interval)
    (mf : Bool) (gmon : Option APIMonitor) (file : Option (List String)) :
    VariantBatchOutcome :=
  let final := runVariantLoop o mf file 0 variants
    { interval := interval, gmon := gmon, results := [], callLog := [] }
  { table := summariseTable final.results
    gmon := final.gmon
    callLog := final.callLog }

/-- One row of the DataFrame built by `batch_predict_sequences`
(helpers.py lines 331-353). -/
structure SequenceRow where
  chromosome : String
  start : Int
  «end» : Int
  length : Int
  success : Bool
  error : Option String
deriving DecidableEq

/-- The row `batch_predict_sequences` appends for one interval, as a
function of the external call's outcome. -/
def sequenceRowOf (iv : Interval) : Except String ModelOutputs → SequenceRow
  | Except.ok _ =>
    { chromosome := iv.chromosome, start := iv.start, «end» := iv.«end»
      length := iv.«end» - iv.start, success := true, error := none }
  | Except.error e =>
    { chromosome := iv.chromosome, start := iv.start, «end» := iv.«end»
      length := iv.«end» - iv.start, success := false, error := some e }

/-- Loop state of `batch_predict_sequences`: global monitor, results,
and the trace of intervals passed to `model.predict_sequence`. -/
structure SequenceBatchState where
  gmon : Option APIMonitor
  results : List SequenceRow
  callLog : List Interval
deriving DecidableEq

/-- One iteration of the `batch_predict_sequences` loop
(helpers.py lines 324-353). -/
def predictSequenceStep (o : Nat → Except String ModelOutputs) (mf : Bool)
    (file : Option (List String)) (i : Nat) (iv : Interval)
    (st : SequenceBatchState) : SequenceBatchState :=
  match o i with
  | Except.ok outputs =>
    let st1 := { st with results := st.results ++ [sequenceRowOf iv (Except.ok outputs)]
                         callLog := st.callLog ++ [iv] }
    if mf then
      let fetched := (monitor_api_quota st1.gmon 1000000 false file).1
      { st1 with gmon := some (fetched.increment 1 true).monitor }
    else st1
  | Except.error e =>
    { st with results := st.results ++ [sequenceRowOf iv (Except.error e)]
              callLog := st.callLog ++ [iv] }

/-- The `for interval in iterator` loop of `batch_predict_sequences`. -/
def runSequenceLoop (o : Nat → Except String ModelOutputs) (mf : Bool)
    (file : Option (List String)) : Nat → List Interval → SequenceBatchState →
    SequenceBatchState
  | _, [], st => st
  | i, iv :: rest, st =>
    runSequenceLoop o mf file (i + 1) rest (predictSequenceStep o mf file i iv st)

/-- What one `batch_predict_sequences` call observably produces. -/
structure SequenceBatchOutcome where
  table : Except String (List SequenceRow)
  gmon : Option APIMonitor
  callLog : List Interval

/-- `batch_predict_sequences` (helpers.py lines 298-358): the loop over
all intervals followed by the post-loop summary, which raises `KeyError`
on an empty row list (helpers.py line 356). -/
def batch_predict_sequences (intervals : List Interval)
    (o : Nat → Except String ModelOutputs) (mf : Bool)
    (gmon : Option APIMonitor) (file : Option (List String)) :
    SequenceBatchOutcome :=
  let final := runSequenceLoop o mf file 0 intervals
    { gmon := gmon, results := [], callLog := [] }
  { table := summariseTable final.results
    gmon := final.gmon
    callLog := final.callLog }

/-- The echoed input fields of a variant result row. -/
def variantRowKey (r : VariantRow) : String × Int × String × String :=
  (r.chromosome, r.position, r.reference, r.alternate)

/-- The identifying fields of a variant request. -/
def variantKey (v : Variant) : String × Int × String × String :=
  (v.chromosome, v.position, v.reference_bases, v.alternate_bases)

/-- The echoed input fields of a sequence result row. -/
def sequenceRowKey (r : SequenceRow) : String × Int × Int × Int :=
  (r.chromosome, r.start, r.«end», r.length)

/-- The identifying fields of an interval request, with the derived
`length = end - start`. -/
def sequenceKey (iv : Interval) : String × Int × Int × Int :=
  (iv.chromosome, iv.start, iv.«end», iv.«end» - iv.start)

/-- The `(success, error)` pair a result row carries for a given
external-call outcome. -/
def outcomePair : Except String ModelOutputs → Bool × Option String
  | Except.ok _ => (true, none)
  | Except.error e => (false, some e)

/-- The rows `batch_predict_variants` produces for the variants `vs`
starting at call index `i`, one per input variant in input order. -/
def variantRows (o : Nat → Except String ModelOutputs) :
    Nat → List Variant → List VariantRow
  | _, [] => []
  | i, v :: rest => variantRowOf v (o i) :: variantRows o (i + 1) rest

/-- The rows `batch_predict_sequences` produces for the intervals `ivs`
starting at call index `i`. -/
def sequenceRows (o : Nat → Except String ModelOutputs) :
    Nat → List Interval → List SequenceRow
  | _, [] => []
  | i, iv :: rest => sequenceRowOf iv (o i) :: sequenceRows o (i + 1) rest

/-- Whether an external-call outcome is a success. -/
def isOkOutcome : Except String ModelOutputs → Bool
  | Except.ok _ => true
  | Except.error _ => false

/-- Number of successful external calls among call indices
`i, i+1, ..., i+n-1`. -/
def countOk (o : Nat → Except String ModelOutputs) : Nat → Nat → Nat
  | _, 0 => 0
  | i, n + 1 => (if isOkOutcome (o i) then 1 else 0) + countOk o (i + 1) n

/-- An observable operation on an `APIMonitor` after construction:
`increment(count)` (with the outcome of its log append) or the read-only
`get_usage()`. -/
inductive MonitorOp where
  | increment (count : Int) (appendOk : Bool)
  | get_usage
deriving DecidableEq

/-- The monitor state after applying one operation. -/
def applyMonitorOp (m : APIMonitor) : MonitorOp → APIMonitor
  | MonitorOp.increment c ok => (m.increment c ok).monitor
  | MonitorOp.get_usage => m

/-- Whether an operation's increment count is nonnegative (every call
site in the repository uses the default `count = 1`). -/
def MonitorOp.hasNonnegCount : MonitorOp → Bool
  | MonitorOp.increment c _ => decide (0 ≤ c)
  | MonitorOp.get_usage => true

/-- `k` consecutive `increment(1)` calls (with successful log appends)
from monitor `m`. -/
def incrementN (m : APIMonitor) : Nat → APIMonitor
  | 0 => m
  | k + 1 => ((incrementN m k).increment 1 true).monitor

/-- Stated from the claim's words, for comparison with `loadUsage`:
restore the count from the last line of the file that contains the
`Total calls` marker (rather than from the literal final line). -/
def claimRestoredCount : Option (List String) → Int
  | none => 0
  | some lines =>
    match (lines.filter
        (fun l => (afterFirst "Total calls".toList l.toList).isSome)).getLast? with
    | none => 0
    | some l => (parseUsageLine l).getD 0


lemma variantRowOf_key (v : Variant) (r : Except String ModelOutputs) :
    variantRowKey (variantRowOf v r) = variantKey v := by
  cases r <;> rfl

lemma sequenceRowOf_key (iv : Interval) (r : Except String ModelOutputs) :
    sequenceRowKey (sequenceRowOf iv r) = sequenceKey iv := by
  cases r <;> rfl

lemma predictVariantStep_results (o : Nat → Except String ModelOutputs) (mf : Bool)
    (file : Option (List String)) (i : Nat) (v : Variant) (st : VariantBatchState) :
    (predictVariantStep o mf file i v st).results = st.results ++ [variantRowOf v (o i)] := by
  cases h : o i <;> cases mf <;> simp [predictVariantStep, h]

lemma predictSequenceStep_results (o : Nat → Except String ModelOutputs) (mf : Bool)
    (file : Option (List String)) (i : Nat) (iv : Interval) (st : SequenceBatchState) :
    (predictSequenceStep o mf file i iv st).results = st.results ++ [sequenceRowOf iv (o i)] := by
  cases h : o i <;> cases mf <;> simp [predictSequenceStep, h]

lemma runVariantLoop_results (o : Nat → Except String ModelOutputs) (mf : Bool)
    (file : Option (List String)) :
    ∀ (vs : List Variant) (i : Nat) (st : VariantBatchState),
      (runVariantLoop o mf file i vs st).results = st.results ++ variantRows o i vs := by
  intro vs
  induction vs with
  | nil => intro i st; simp [runVariantLoop, variantRows]
  | cons v rest ih =>
    intro i st
    rw [runVariantLoop, ih, predictVariantStep_results]
    simp [variantRows]

lemma runSequenceLoop_results (o : Nat → Except String ModelOutputs) (mf : Bool)
    (file : Option (List String)) :
    ∀ (ivs : List Interval) (i : Nat) (st : SequenceBatchState),
      (runSequenceLoop o mf file i ivs st).results = st.results ++ sequenceRows o i ivs := by
  intro ivs
  induction ivs with
  | nil => intro i st; simp [runSequenceLoop, sequenceRows]
  | cons iv rest ih =>
    intro i st
    rw [runSequenceLoop, ih, predictSequenceStep_results]
    simp [sequenceRows]

lemma variantRows_length (o : Nat → Except String ModelOutputs) :
    ∀ (vs : List Variant) (i : Nat), (variantRows o i vs).length = vs.length := by
  intro vs
  induction vs with
  | nil => intro i; rfl
  | cons v rest ih => intro i; simp [variantRows, ih]

lemma sequenceRows_length (o : Nat → Except String ModelOutputs) :
    ∀ (ivs : List Interval) (i : Nat), (sequenceRows o i ivs).length = ivs.length := by
  intro ivs
  induction ivs with
  | nil => intro i; rfl
  | cons iv rest ih => intro i; simp [sequenceRows, ih]

lemma variantRows_map_key (o : Nat → Except String ModelOutputs) :
    ∀ (vs : List Variant) (i : Nat),
      (variantRows o i vs).map variantRowKey = vs.map variantKey := by
  intro vs
  induction vs with
  | nil => intro i; rfl
  | cons v rest ih => intro i; simp [variantRows, variantRowOf_key, ih]

lemma sequenceRows_map_key (o : Nat → Except String ModelOutputs) :
    ∀ (ivs : List Interval) (i : Nat),
      (sequenceRows o i ivs).map sequenceRowKey = ivs.map sequenceKey := by
  intro ivs
  induction ivs with
  | nil => intro i; rfl
  | cons iv rest ih => intro i; simp [sequenceRows, sequenceRowOf_key, ih]

lemma variantRowOf_se (v : Variant) (r : Except String ModelOutputs) :
    ((variantRowOf v r).success, (variantRowOf v r).error) = outcomePair r := by
  cases r <;> rfl

lemma sequenceRowOf_se (iv : Interval) (r : Except String ModelOutputs) :
    ((sequenceRowOf iv r).success, (sequenceRowOf iv r).error) = outcomePair r := by
  cases r <;> rfl

lemma variantRows_map_se (o : Nat → Except String ModelOutputs) :
    ∀ (vs : List Variant) (i : Nat),
      (variantRows o i vs).map (fun r => (r.success, r.error))
        = (List.range vs.length).map (fun j => outcomePair (o (i + j))) := by
  intro vs
  induction vs with
  | nil => intro i; rfl
  | cons v rest ih =>
    intro i
    rw [List.length_cons, List.range_succ_eq_map]
    simp only [variantRows, List.map_cons, List.map_map, Function.comp]
    refine congrArg₂ List.cons ?_ ?_
    · simpa using variantRowOf_se v (o i)
    · rw [ih (i + 1)]
      refine List.map_congr_left ?_
      intro j hj
      simp only [Function.comp_apply]
      have hidx : i + 1 + j = i + Nat.succ j := by omega
      rw [hidx]

lemma sequenceRows_map_se (o : Nat → Except String ModelOutputs) :
    ∀ (ivs : List Interval) (i : Nat),
      (sequenceRows o i ivs).map (fun r => (r.success, r.error))
        = (List.range ivs.length).map (fun j => outcomePair (o (i + j))) := by
  intro ivs
  induction ivs with
  | nil => intro i; rfl
  | cons iv rest ih =>
    intro i
    rw [List.length_cons, List.range_succ_eq_map]
    simp only [sequenceRows, List.map_cons, List.map_map, Function.comp]
    refine congrArg₂ List.cons ?_ ?_
    · simpa using sequenceRowOf_se iv (o i)
    · rw [ih (i + 1)]
      refine List.map_congr_left ?_
      intro j hj
      simp only [Function.comp_apply]
      have hidx : i + 1 + j = i + Nat.succ j := by omega
      rw [hidx]


lemma predictVariantStep_gmon (o : Nat → Except String ModelOutputs)
    (file : Option (List String)) (i : Nat) (v : Variant)
    (st : VariantBatchState) (m : APIMonitor) (h : st.gmon = some m) :
    (predictVariantStep o true file i v st).gmon
      = some { m with calls := m.calls + (if isOkOutcome (o i) then 1 else 0) } := by
  cases ho : o i <;>
    simp [predictVariantStep, ho, isOkOutcome, h, monitor_api_quota, APIMonitor.increment]

lemma predictSequenceStep_gmon (o : Nat → Except String ModelOutputs)
    (file : Option (List String)) (i : Nat) (iv : Interval)
    (st : SequenceBatchState) (m : APIMonitor) (h : st.gmon = some m) :
    (predictSequenceStep o true file i iv st).gmon
      = some { m with calls := m.calls + (if isOkOutcome (o i) then 1 else 0) } := by
  cases ho : o i <;>
    simp [predictSequenceStep, ho, isOkOutcome, h, monitor_api_quota, APIMonitor.increment]

lemma runVariantLoop_gmon (o : Nat → Except String ModelOutputs)
    (file : Option (List String)) :
    ∀ (vs : List Variant) (i : Nat) (m : APIMonitor) (st : VariantBatchState),
      st.gmon = some m →
      (runVariantLoop o true file i vs st).gmon
        = some { m with calls := m.calls + (countOk o i vs.length : Int) } := by
  intro vs
  induction vs with
  | nil => intro i m st h; simp [runVariantLoop, countOk, h]
  | cons v rest ih =>
    intro i m st h
    rw [runVariantLoop, ih (i + 1) _ _ (predictVariantStep_gmon o file i v st m h)]
    simp only [List.length_cons, countOk]
    cases ho : isOkOutcome (o i) <;> simp [ho, add_assoc]

lemma runSequenceLoop_gmon (o : Nat → Except String ModelOutputs)
    (file : Option (List String)) :
    ∀ (ivs : List Interval) (i : Nat) (m : APIMonitor) (st : SequenceBatchState),
      st.gmon = some m →
      (runSequenceLoop o true file i ivs st).gmon
        = some { m with calls := m.calls + (countOk o i ivs.length : Int) } := by
  intro ivs
  induction ivs with
  | nil => intro i m st h; simp [runSequenceLoop, countOk, h]
  | cons iv rest ih =>
    intro i m st h
    rw [runSequenceLoop, ih (i + 1) _ _ (predictSequenceStep_gmon o file i iv st m h)]
    simp only [List.length_cons, countOk]
    cases ho : isOkOutcome (o i) <;> simp [ho, add_assoc]

lemma incrementN_make (L : Int) (θ : ℚ) (k : Nat) :
    incrementN (APIMonitor.make L θ none) k
      = { limit := L, warning_threshold := θ, calls := (k : Int) } := by
  induction k with
  | zero => simp [incrementN, APIMonitor.make, loadUsage]
  | succ n ih => simp [incrementN, ih, APIMonitor.increment]


lemma variantRows_isEmpty_false (o : Nat → Except String ModelOutputs)
    (vs : List Variant) (i : Nat) (h : vs ≠ []) :
    (variantRows o i vs).isEmpty = false := by
  cases vs with
  | nil => exact absurd rfl h
  | cons v rest => rfl

lemma sequenceRows_isEmpty_false (o : Nat → Except String ModelOutputs)
    (ivs : List Interval) (i : Nat) (h : ivs ≠ []) :
    (sequenceRows o i ivs).isEmpty = false := by
  cases ivs with
  | nil => exact absurd rfl h
  | cons iv rest => rfl

/-- C1 (counterexample): on an empty input list the post-loop summary
`df['success'].sum()` raises `KeyError` — `pd.DataFrame([])` has no
`success` column — so the runner returns no table at all, in particular
not the zero-row table the claim requires (`len(resultTable) == 0`).
Both batch runners fail this way. -/
theorem c1_counterexample_empty_batch_raises :
    (batch_predict_variants [] (fun _ => Except.ok ⟨true, true⟩) none false none
        none).table = Except.error "KeyError: success" ∧
    (batch_predict_variants [] (fun _ => Except.ok ⟨true, true⟩) none false none
        none).table ≠ Except.ok [] ∧
    (batch_predict_sequences [] (fun _ => Except.ok ⟨true, true⟩) false none
        none).table = Except.error "KeyError: success" := by
  refine ⟨rfl, ?_, rfl⟩
  intro h
  exact Except.noConfusion h

/-- C1 (amended): for every NON-EMPTY input list of requests (variants
or intervals), every oracle, caller-supplied interval, monitoring flag,
global-monitor state and log-file contents, the batch runner returns a
table with exactly one result row per input request
(`len(resultTable) == len(requests)`), the rows echoing the inputs in
input order with no reordering and no deduplication, regardless of
which individual calls succeed or raise; an empty input list instead
raises `KeyError` at the post-loop summary and returns no table. -/
theorem c1_batch_one_row_per_request_in_order
    (variants : List Variant) (intervals : List Interval)
    (o os : Nat → Except String ModelOutputs) (iv : Option Interval)
    (mf mfs : Bool) (g gs : Option APIMonitor) (file files : Option (List String))
    (hv : variants ≠ []) (hs : intervals ≠ []) :
    ((batch_predict_variants variants o iv mf g file).table
        = Except.ok (variantRows o 0 variants) ∧
      (variantRows o 0 variants).length = variants.length ∧
      (variantRows o 0 variants).map variantRowKey = variants.map variantKey) ∧
    ((batch_predict_sequences intervals os mfs gs files).table
        = Except.ok (sequenceRows os 0 intervals) ∧
      (sequenceRows os 0 intervals).length = intervals.length ∧
      (sequenceRows os 0 intervals).map sequenceRowKey
        = intervals.map sequenceKey) := by
  refine ⟨⟨?_, variantRows_length o variants 0, variantRows_map_key o variants 0⟩,
          ⟨?_, sequenceRows_length os intervals 0, sequenceRows_map_key os intervals 0⟩⟩
  · show summariseTable
        (runVariantLoop o mf file 0 variants ⟨iv, g, [], []⟩).results = _
    rw [runVariantLoop_results]
    simp [summariseTable, variantRows_isEmpty_false o variants 0 hv]
  · show summariseTable
        (runSequenceLoop os mfs files 0 intervals ⟨gs, [], []⟩).results = _
    rw [runSequenceLoop_results]
    simp [summariseTable, sequenceRows_isEmpty_false os intervals 0 hs]

/-- Witness for C1 (amended) at concrete one-element batches. -/
theorem c1_nonempty_witness :
    ([(⟨"chr22", 36201698, "A", "C"⟩ : Variant)] ≠ []) ∧
    ([(⟨"chr22", 100, 200⟩ : Interval)] ≠ []) ∧
    (((batch_predict_variants [⟨"chr22", 36201698, "A", "C"⟩]
          (fun _ => Except.ok ⟨true, true⟩) none false none none).table
        = Except.ok (variantRows (fun _ => Except.ok ⟨true, true⟩) 0
            [⟨"chr22", 36201698, "A", "C"⟩]) ∧
      (variantRows (fun _ => Except.ok ⟨true, true⟩) 0
          [⟨"chr22", 36201698, "A", "C"⟩]).length
        = [(⟨"chr22", 36201698, "A", "C"⟩ : Variant)].length ∧
      (variantRows (fun _ => Except.ok ⟨true, true⟩) 0
          [⟨"chr22", 36201698, "A", "C"⟩]).map variantRowKey
        = [(⟨"chr22", 36201698, "A", "C"⟩ : Variant)].map variantKey) ∧
    ((batch_predict_sequences [⟨"chr22", 100, 200⟩]
          (fun _ => Except.ok ⟨true, true⟩) false none none).table
        = Except.ok (sequenceRows (fun _ => Except.ok ⟨true, true⟩) 0
            [⟨"chr22", 100, 200⟩]) ∧
      (sequenceRows (fun _ => Except.ok ⟨true, true⟩) 0
          [⟨"chr22", 100, 200⟩]).length
        = [(⟨"chr22", 100, 200⟩ : Interval)].length ∧
      (sequenceRows (fun _ => Except.ok ⟨true, true⟩) 0
          [⟨"chr22", 100, 200⟩]).map sequenceRowKey
        = [(⟨"chr22", 100, 200⟩ : Interval)].map sequenceKey)) :=
  ⟨by decide, by decide,
    c1_batch_one_row_per_request_in_order
      [⟨"chr22", 36201698, "A", "C"⟩] [⟨"chr22", 100, 200⟩]
      (fun _ => Except.ok ⟨true, true⟩) (fun _ => Except.ok ⟨true, true⟩)
      none false false none none none none (by decide) (by decide)⟩

/-- C2 (counterexample): the claim asserts the `error` field of a failed
row is a non-empty string, but the handlers store `str(e)` unchanged:
for a single-variant batch whose external call raises an exception whose
string form is empty, the emitted row has `success=false` and an empty
`error` string. -/
theorem c2_counterexample_empty_error_string :
    ((batch_predict_variants [⟨"chr22", 36201698, "A", "C"⟩]
        (fun _ => Except.error "") none false none none).table.map
        (fun rows => rows.map (fun r => (r.success, r.error))))
      = Except.ok [(false, some "")] ∧
    ("" : String).length = 0 := by
  exact ⟨rfl, rfl⟩

/-- C2 (amended): in every batch that contains at least one request (an
empty batch raises at the post-loop summary), for every request whose
external call raises, the batch emits a row with `success=false` and
`error` equal to the stringified exception (which is empty exactly when
the exception's string form is empty), then continues; rows of
successful calls have `success=true` and no error field. In particular
an all-raising oracle yields a complete table of `success=false` rows,
and a never-raising oracle yields all `success=true` rows with no error
fields. -/
theorem c2_rows_reflect_outcomes
    (variants : List Variant) (intervals : List Interval)
    (o os : Nat → Except String ModelOutputs) (iv : Option Interval)
    (mf mfs : Bool) (g gs : Option APIMonitor) (file files : Option (List String))
    (hv : variants ≠ []) (hs : intervals ≠ []) :
    (batch_predict_variants variants o iv mf g file).table.map
        (fun rows => rows.map (fun r => (r.success, r.error)))
      = Except.ok ((List.range variants.length).map (fun j => outcomePair (o j))) ∧
    (batch_predict_sequences intervals os mfs gs files).table.map
        (fun rows => rows.map (fun r => (r.success, r.error)))
      = Except.ok ((List.range intervals.length).map (fun j => outcomePair (os j))) := by
  constructor
  · show (Except.map _ (summariseTable
        (runVariantLoop o mf file 0 variants ⟨iv, g, [], []⟩).results)) = _
    rw [runVariantLoop_results]
    simp only [List.nil_append, summariseTable,
      variantRows_isEmpty_false o variants 0 hv, Bool.false_eq_true, if_false,
      Except.map]
    simpa using variantRows_map_se o variants 0
  · show (Except.map _ (summariseTable
        (runSequenceLoop os mfs files 0 intervals ⟨gs, [], []⟩).results)) = _
    rw [runSequenceLoop_results]
    simp only [List.nil_append, summariseTable,
      sequenceRows_isEmpty_false os intervals 0 hs, Bool.false_eq_true, if_false,
      Except.map]
    simpa using sequenceRows_map_se os intervals 0

/-- Witness for C2 (amended) at concrete one-element batches whose calls
raise. -/
theorem c2_outcomes_witness :
    ([(⟨"chr1", 100, "A", "T"⟩ : Variant)] ≠ []) ∧
    ([(⟨"chr1", 10, 20⟩ : Interval)] ≠ []) ∧
    ((batch_predict_variants [⟨"chr1", 100, "A", "T"⟩]
          (fun _ => Except.error "boom") none false none none).table.map
          (fun rows => rows.map (fun r => (r.success, r.error)))
        = Except.ok ((List.range
            [(⟨"chr1", 100, "A", "T"⟩ : Variant)].length).map
            (fun j => outcomePair ((fun _ => Except.error "boom") j))) ∧
      (batch_predict_sequences [⟨"chr1", 10, 20⟩]
          (fun _ => Except.error "boom") false none none).table.map
          (fun rows => rows.map (fun r => (r.success, r.error)))
        = Except.ok ((List.range
            [(⟨"chr1", 10, 20⟩ : Interval)].length).map
            (fun j => outcomePair ((fun _ => Except.error "boom") j)))) :=
  ⟨by decide, by decide,
    c2_rows_reflect_outcomes [⟨"chr1", 100, "A", "T"⟩] [⟨"chr1", 10, 20⟩]
      (fun _ => Except.error "boom") (fun _ => Except.error "boom")
      none false false none none none none (by decide) (by decide)⟩

/-- C3 (code bug): with no caller-supplied interval, the source assigns
the derived window to the `interval` parameter variable inside the loop,
so the window derived for the FIRST variant is reused for every later
variant. Here two variants at positions 200000 and 500000 are batched:
both external calls receive the window centred on 200000
(`[150000, 250000]`), and the second call's interval is not the window
centred on its own position 500000 (`[450000, 550000]`). -/
theorem c3_interval_reused_for_later_variants :
    ((batch_predict_variants
        [⟨"chr1", 200000, "A", "C"⟩, ⟨"chr1", 500000, "G", "T"⟩]
        (fun _ => Except.ok ⟨true, true⟩) none false none none).callLog.map Prod.fst
      = [variantWindow ⟨"chr1", 200000, "A", "C"⟩,
          variantWindow ⟨"chr1", 200000, "A", "C"⟩]) ∧
    variantWindow ⟨"chr1", 200000, "A", "C"⟩ = ⟨"chr1", 150000, 250000⟩ ∧
    variantWindow ⟨"chr1", 500000, "G", "T"⟩ = ⟨"chr1", 450000, 550000⟩ ∧
    ((⟨"chr1", 150000, 250000⟩ : Interval) ≠ ⟨"chr1", 450000, 550000⟩) := by
  refine ⟨by decide, by decide, by decide, by decide⟩

/-- C4 (counterexample): the claim asserts the monitor is incremented
once per attempted request for which a remote call was issued, success
or failure; but the source only increments on the success path. A
single-variant batch with monitoring enabled whose external call raises
issues one remote call (the call log has one entry) yet leaves the
monitor's count at 0, not 1. -/
theorem c4_counterexample_failed_call_not_counted :
    (batch_predict_variants [⟨"chr1", 100, "A", "T"⟩] (fun _ => Except.error "boom")
        none true (some (APIMonitor.make 1000000 (9 / 10) none)) none).callLog.length = 1 ∧
    (batch_predict_variants [⟨"chr1", 100, "A", "T"⟩] (fun _ => Except.error "boom")
        none true (some (APIMonitor.make 1000000 (9 / 10) none)) none).gmon.map
        (fun mm => mm.calls) = some 0 ∧
    ((0 : Int) ≠ 1) := by
  refine ⟨by decide, by decide, by decide⟩

/-- C4 (amended): with monitoring enabled and a monitor already
installed, the batch runners call `increment()` exactly once after each
SUCCESSFUL attempt and never after a failed one, so after the batch the
monitor's count has grown by exactly the number of successful calls. -/
theorem c4_monitor_counts_successful_calls
    (variants : List Variant) (intervals : List Interval)
    (o os : Nat → Except String ModelOutputs) (iv : Option Interval)
    (m ms : APIMonitor) (file files : Option (List String)) :
    (batch_predict_variants variants o iv true (some m) file).gmon
      = some { m with calls := m.calls + (countOk o 0 variants.length : Int) } ∧
    (batch_predict_sequences intervals os true (some ms) files).gmon
      = some { ms with calls := ms.calls + (countOk os 0 intervals.length : Int) } := by
  constructor
  · show (runVariantLoop o true file 0 variants ⟨iv, some m, [], []⟩).gmon = _
    exact runVariantLoop_gmon o file variants 0 m _ rfl
  · show (runSequenceLoop os true files 0 intervals ⟨some ms, [], []⟩).gmon = _
    exact runSequenceLoop_gmon os files intervals 0 ms _ rfl


/-- C5 (counterexample): the claim restores the count from the last line
CONTAINING the `Total calls` marker, but `_load_usage` examines only the
literal final line (`readlines()[-1]`). For a log whose final line is
unrelated while an earlier line records `Total calls: 5`, the claim
gives 5 and the code restores 0. -/
theorem c5_counterexample_marker_on_earlier_line_ignored :
    loadUsage (some ["Total calls: 5", "junk"]) = 0 ∧
    claimRestoredCount (some ["Total calls: 5", "junk"]) = 5 ∧
    ((0 : Int) ≠ 5) := by
  refine ⟨by decide, by decide, by decide⟩

/-- C5 (amended): construction consults only the final line of the log:
a missing or empty file restores 0; otherwise, if the final line
contains the `Total calls` marker and its trailing integer parses, that
value is restored, and on any other final line (marker absent — even
when an earlier line carries it — or a malformed remainder, both of
which make the load raise or skip) the count starts at 0, the failure
being swallowed, never raised. -/
theorem c5_restore_uses_only_final_line :
    loadUsage none = 0 ∧
    loadUsage (some []) = 0 ∧
    (∀ (init : List String) (last : String),
        loadUsage (some (init ++ [last])) = (parseUsageLine last).getD 0) ∧
    parseUsageLine "2026-10-12T00:00:00 - Total calls: 42" = some 42 ∧
    parseUsageLine "no marker here 42" = none := by
  refine ⟨rfl, rfl, ?_, by decide, by decide⟩
  intro init last
  simp [loadUsage, List.getLast?_concat]

/-- C6: from a freshly constructed monitor (no log file, count 0) with
positive limit `L` and threshold `θ`, `k` increments leave the counter
at exactly `k` (warnings never block or alter it), and the `(j+1)`-st
increment emits the warning if and only if the post-increment fraction
`(j+1)/L` is at least `θ` — so the warning first fires exactly at the
increment that reaches the threshold (the boundary counting as crossed)
and at no earlier increment. -/
theorem c6_warning_exactly_at_threshold_crossing (L : Int) (θ : ℚ)
    (hL : 0 < L) (k j : Nat) :
    (incrementN (APIMonitor.make L θ none) k).calls = (k : Int) ∧
    (((incrementN (APIMonitor.make L θ none) j).increment 1 true).warned = true
      ↔ θ ≤ ((j : ℚ) + 1) / (L : ℚ)) := by
  constructor
  · rw [incrementN_make]
  · rw [incrementN_make]
    simp only [APIMonitor.increment, ge_iff_le, decide_eq_true_eq]
    constructor
    · intro h
      convert h using 2
      push_cast
      ring
    · intro h
      convert h using 2
      push_cast
      ring

/-- Witness for C6 at limit 10, threshold 0.9: the ninth increment is
the first to reach the threshold. -/
theorem c6_warning_witness :
    0 < (10 : Int) ∧
    ((incrementN (APIMonitor.make (10 : Int) (9 / 10 : ℚ) none) 9).calls = ((9 : Nat) : Int) ∧
      (((incrementN (APIMonitor.make (10 : Int) (9 / 10 : ℚ) none) 8).increment 1 true).warned = true
        ↔ (9 / 10 : ℚ) ≤ (((8 : Nat) : ℚ) + 1) / ((10 : Int) : ℚ))) :=
  ⟨by decide, c6_warning_exactly_at_threshold_crossing 10 (9 / 10) (by decide) 9 8⟩


/-- C7 (counterexample): `increment(count)` accepts any integer count,
so an operation sequence containing `increment(-1)` strictly decreases
the counter, contradicting the claim that every operation leaves `calls`
greater than or equal to its previous value. -/
theorem c7_counterexample_negative_increment :
    (applyMonitorOp (APIMonitor.make 5 (9 / 10) none)
        (MonitorOp.increment (-1) true)).calls
      < (APIMonitor.make 5 (9 / 10) none).calls := by
  decide

/-- C7 (amended): after construction, every monitor operation whose
increment count is nonnegative — as at every call site in the
repository, which all use the default `count = 1` — leaves `calls`
greater than or equal to its previous value; `get_usage` never changes
it. Hence during a process lifetime the counter never decreases. -/
theorem c7_calls_monotone_for_nonneg_counts (m : APIMonitor) (op : MonitorOp)
    (h : op.hasNonnegCount = true) :
    m.calls ≤ (applyMonitorOp m op).calls := by
  cases op with
  | increment c ok =>
    simp only [MonitorOp.hasNonnegCount, decide_eq_true_eq] at h
    simp [applyMonitorOp, APIMonitor.increment]
    omega
  | get_usage => simp [applyMonitorOp]

/-- Witness for C7 (amended) at a concrete monitor and operation. -/
theorem c7_monotone_witness :
    (MonitorOp.increment 1 true).hasNonnegCount = true ∧
    (APIMonitor.make 5 (9 / 10) none).calls
      ≤ (applyMonitorOp (APIMonitor.make 5 (9 / 10) none)
          (MonitorOp.increment 1 true)).calls :=
  ⟨by decide, c7_calls_monotone_for_nonneg_counts _ _ (by decide)⟩

/-- C8: when the log append fails, `increment` records the error (it is
caught inside `_log_usage` and logged, never propagated — the model's
`increment` is total and returns the captured error in `logError`), and
the in-memory counter is still advanced by the given count, so
`get_usage()` reflects the increment even though persistence failed. -/
theorem c8_increment_updates_despite_log_failure (m : APIMonitor) (count : Int) :
    ((m.increment count false).monitor.calls = m.calls + count) ∧
    ((m.increment count false).logError.isSome = true) ∧
    ((m.increment count false).monitor.get_usage.calls = m.calls + count) ∧
    ((m.increment count false).monitor.get_usage.remaining
        = m.limit - (m.calls + count)) := by
  refine ⟨rfl, rfl, rfl, rfl⟩

/-- C9: loading an interval batch rejects, at load/construction time,
any row whose `end` is at most its `start`: the load returns an error
as soon as such a row is constructed, and a returned interval list can
only contain intervals with `start < end` — no offending row is ever
silently accepted. -/
theorem c9_interval_load_rejects_end_le_start (rows : List CsvIntervalRow) :
    ((∃ r ∈ rows, r.«end» ≤ r.start) →
        exceptIsError (load_intervals_from_csv rows) = true) ∧
    (∀ l, load_intervals_from_csv rows = Except.ok l →
        ∀ iv ∈ l, iv.start < iv.«end») := by
  induction rows with
  | nil =>
    constructor
    · rintro ⟨r, hr, _⟩
      cases hr
    · intro l hl iv hiv
      cases hl
      cases hiv
  | cons r rest ih =>
    by_cases hbad : r.«end» ≤ r.start
    · have hload : load_intervals_from_csv (r :: rest)
          = Except.error "invalid interval: end must exceed start" := by
        simp [load_intervals_from_csv, Interval.make, hbad]
      constructor
      · intro _
        rw [hload]
        rfl
      · intro l hl
        rw [hload] at hl
        cases hl
    · have hmk : Interval.make r.chromosome r.start r.«end»
          = Except.ok ⟨r.chromosome, r.start, r.«end»⟩ := by
        simp [Interval.make, hbad]
      constructor
      · rintro ⟨r', hr', hle⟩
        rcases List.mem_cons.mp hr' with heq | hmem
        · subst heq
          exact absurd hle hbad
        · have herr := ih.1 ⟨r', hmem, hle⟩
          cases hrest : load_intervals_from_csv rest with
          | error e => simp [load_intervals_from_csv, hmk, hrest, exceptIsError]
          | ok l0 =>
            rw [hrest] at herr
            simp [exceptIsError] at herr
      · intro l hl iv hiv
        cases hrest : load_intervals_from_csv rest with
        | error e =>
          have : load_intervals_from_csv (r :: rest) = Except.error e := by
            simp [load_intervals_from_csv, hmk, hrest]
          rw [this] at hl
          cases hl
        | ok ivs =>
          have hcons : load_intervals_from_csv (r :: rest)
              = Except.ok (Interval.mk r.chromosome r.start r.«end» :: ivs) := by
            simp [load_intervals_from_csv, hmk, hrest]
          rw [hcons] at hl
          injection hl with hl
          subst hl
          rcases List.mem_cons.mp hiv with heq | hmem
          · subst heq
            simpa using lt_of_not_le hbad
          · exact ih.2 ivs hrest iv hmem

/-- Witness for C9 at a concrete one-row batch with `end = start`. -/
theorem c9_reject_witness :
    (∃ r ∈ [(⟨"chr1", 5, 5⟩ : CsvIntervalRow)], r.«end» ≤ r.start) ∧
    exceptIsError (load_intervals_from_csv [⟨"chr1", 5, 5⟩]) = true :=
  ⟨by decide, (c9_interval_load_rejects_end_le_start [⟨"chr1", 5, 5⟩]).1 (by decide)⟩

/-- C10: once a monitor is installed in the process-wide slot, every
`monitor_api_quota(limit=L, reset=False)` call returns that same
instance unchanged (the `limit` argument is ignored and the global slot
keeps the existing monitor); with an empty slot (first call) or with
`reset=True` a fresh monitor carrying the passed limit is created and
installed; and a batch runner's internal call, made with the default
arguments while the slot is empty, installs a monitor whose limit is
the default 1000000. -/
theorem c10_singleton_monitor_semantics :
    (∀ (m : APIMonitor) (L : Int) (file : Option (List String)),
        monitor_api_quota (some m) L false file = (m, some m)) ∧
    (∀ (L : Int) (file : Option (List String)),
        (monitor_api_quota none L false file).1.limit = L ∧
        (monitor_api_quota none L false file).2
          = some (monitor_api_quota none L false file).1) ∧
    (∀ (m : APIMonitor) (L : Int) (file : Option (List String)),
        (monitor_api_quota (some m) L true file).1.limit = L) ∧
    ((batch_predict_variants [⟨"chr1", 0, "A", "C"⟩]
        (fun _ => Except.ok ⟨true, true⟩) none true none none).gmon.map
        (fun mm => (mm.limit, mm.calls)) = some (1000000, 1)) := by
  refine ⟨fun m L file => rfl, fun L file => ⟨rfl, rfl⟩, fun m L file => rfl, by decide⟩

end AlphagenomeTools
